import Mathlib

set_option maxHeartbeats 1000000

-- Shallow embedding of bloom's git bloom-import-upstream tool
-- (src/bloom/import_upstream.py). Subprocess output such as the listing
-- printed by the git branch command is modelled as List Char, because the
-- source inspects it with Python substring operations (str.count and the
-- membership operator). Pure string manipulation keeps Lean String.

/-- Python str.count for a nonempty needle, over lists of characters:
counts non-overlapping occurrences left to right. Written structurally on a
fuel argument so that it evaluates by kernel reduction; fuel equal to the
length of the haystack always suffices, since every step consumes at least
one character of the haystack and one unit of fuel. -/
def countOccsFuel (needle : List Char) : Nat → List Char → Nat
  | 0, _ => 0
  | _, [] => 0
  | fuel + 1, c :: rest =>
    if needle.isPrefixOf (c :: rest) then
      1 + countOccsFuel needle fuel (List.drop (needle.length - 1) rest)
    else
      countOccsFuel needle fuel rest

/-- Python str.count of a nonempty needle in a haystack of characters. -/
def countOccs (needle hay : List Char) : Nat :=
  countOccsFuel needle hay.length hay

/-- Python substring membership test (the in operator) over lists of
characters. -/
def isSubListOf (needle : List Char) : List Char → Bool
  | [] => needle.isEmpty
  | c :: rest => needle.isPrefixOf (c :: rest) || isSubListOf needle rest

/-- One line of git branch output: a two-column marker (an asterisk and a
space for the checked-out branch, two spaces otherwise) followed by the
branch name and a newline. -/
def gitBranchLine (current b : String) : List Char :=
  (if b = current then "* " else "  ").data ++ b.data ++ ['\n']

/-- Output of the git branch command for a repository whose local branches
are names, with current checked out. -/
def gitBranchOutput (current : String) (names : List String) : List Char :=
  (names.map (gitBranchLine current)).flatten

/-- Message passed to bailout by not_a_bloom_release_repo
(import_upstream.py, lines 87 to 90). -/
def not_a_bloom_release_repo_msg : String :=
  "This does not appear to be a bloom release repo. Please initialize it first using: git bloom-set-upstream <UPSTREAM_VCS_URL> <VCS_TYPE>"

/-- Mutating commands run by convert_catkin_to_bloom (lines 63 to 84), as a
function of which configuration files exist in the working tree. -/
def convert_catkin_to_bloom (catkin_conf_exists bloom_conf_exists : Bool) : List String :=
  ["git branch -m catkin bloom", "git checkout bloom"]
    ++ (if catkin_conf_exists then ["git mv catkin.conf bloom.conf"] else [])
    ++ (if bloom_conf_exists then
          ["replace [catkin] with [bloom] in bloom.conf",
           "git add bloom.conf",
           "git commit -m rename catkin.conf to bloom.conf"]
        else [])

/-- Result of the repository validator: the mutating commands it executed
and the bailout message if it bailed out. -/
structure CheckOutcome where
  commands : List String
  fatal : Option String
deriving DecidableEq

/-- check_for_bloom (lines 93 to 106): substring counts of bloom and catkin
in the output of the git branch command decide between proceeding (a branch
containing bloom was seen), migrating the legacy catkin setup, and bailing
out with the initialization hint. -/
def check_for_bloom (branch_output : List Char)
    (catkin_conf_exists bloom_conf_exists : Bool) : CheckOutcome :=
  if countOccs "bloom".data branch_output = 0 then
    if countOccs "catkin".data branch_output = 0 then
      { commands := [], fatal := some not_a_bloom_release_repo_msg }
    else
      { commands := convert_catkin_to_bloom catkin_conf_exists bloom_conf_exists,
        fatal := none }
  else
    { commands := [], fatal := none }

/-- Python str.strip over a Lean string: drop whitespace from both ends. -/
def pyStrip (s : String) : String :=
  String.mk (((s.data.dropWhile Char.isWhitespace).reverse.dropWhile Char.isWhitespace).reverse)

/-- parse_bloom_conf (lines 109 to 122). The three git config reads are
modelled by a lookup function from key to Option String (None models the
CalledProcessError of a failing read). The reads of bloom.upstream and
bloom.upstreamtype propagate failure; a failing read of
bloom.upstreambranch is caught and replaced by the empty string. -/
def parse_bloom_conf (conf : String → Option String) : Option (String × String × String) :=
  match conf "bloom.upstream" with
  | none => none
  | some upstream_repo =>
    match conf "bloom.upstreamtype" with
    | none => none
    | some upstream_type =>
      let upstream_branch :=
        match conf "bloom.upstreambranch" with
        | some b => pyStrip b
        | none => ""
      some (pyStrip upstream_repo, pyStrip upstream_type, upstream_branch)

/-- Python str.replace over lists of characters: replace all non-overlapping
occurrences of pat by rep, left to right. Written structurally on fuel so it
evaluates by kernel reduction; fuel equal to the input length suffices. -/
def pyReplaceFuel (pat rep : List Char) : Nat → List Char → List Char
  | 0, l => l
  | _, [] => []
  | fuel + 1, c :: rest =>
    if pat.isPrefixOf (c :: rest) ∧ pat ≠ [] then
      rep ++ pyReplaceFuel pat rep fuel (List.drop (pat.length - 1) rest)
    else
      c :: pyReplaceFuel pat rep fuel rest

/-- Python str.replace of pat by rep in l. -/
def pyReplace (pat rep l : List Char) : List Char :=
  pyReplaceFuel pat rep l.length l

/-- get_tarball_name (lines 125 to 130): replace underscores of the package
name by hyphens, then join name and version with a hyphen. -/
def get_tarball_name (pkg_name full_version : String) : String :=
  String.mk (pyReplace "_".data "-".data pkg_name.data) ++ "-" ++ full_version

/-- Basename of the archive handed to git import-orig (line 262): the
tarball prefix produced by get_tarball_name plus the .tar.gz suffix. -/
def tarball_file_name (pkg_name full_version : String) : String :=
  get_tarball_name pkg_name full_version ++ ".tar.gz"

/-- Archive naming rule as the spec words it: every underscore of the
package name replaced by a hyphen, a hyphen and the version appended, and
the .tar.gz suffix added. Stated independently of the source function for
comparison with it. -/
def spec_archive_name (pkg_name full_version : String) : String :=
  String.mk (pkg_name.data.map (fun c => if c = '_' then '-' else c))
    ++ "-" ++ full_version ++ ".tar.gz"

/-- Branch argument handed to the upstream checkout (line 198): the
configured branch verbatim, unless it is the literal placeholder text, in
which case the empty string is passed. -/
def checkout_branch_arg (upstream_branch : String) : String :=
  if upstream_branch ≠ "(No branch set)" then upstream_branch else ""

/-- Branch text printed by summarize_repo_info (line 165): an empty
configured branch is displayed as the placeholder text. -/
def summarize_branch_display (upstream_branch : String) : String :=
  if upstream_branch ≠ "" then upstream_branch else "(No branch set)"

/-- Split a list of characters on a separator character, like Python
str.split with a one-character separator. -/
def splitOnChar (sep : Char) : List Char → List (List Char)
  | [] => [[]]
  | c :: rest =>
    if c = sep then [] :: splitOnChar sep rest
    else
      match splitOnChar sep rest with
      | [] => [[c]]
      | p :: ps => (c :: p) :: ps

/-- Numeric component of a version string: a nonempty run of digits, read
as a natural number (leading zeros allowed, as in the regular expression of
the strict version class). -/
def digitsToNat (l : List Char) : Option Nat :=
  if l ≠ [] ∧ l.all Char.isDigit = true then
    some (l.foldl (fun n c => 10 * n + (c.toNat - 48)) 0)
  else none

/-- Parser for the three-numeric-component sublanguage of
distutils.version.StrictVersion (an external library, out of scope per the
spec): exactly three dot-separated nonempty digit runs. None models the
ValueError raised on input outside this sublanguage. -/
def parseStrictVersion (s : String) : Option (Nat × Nat × Nat) :=
  match splitOnChar '.' s.data with
  | [a, b, c] => do
    let x ← digitsToNat a
    let y ← digitsToNat b
    let z ← digitsToNat c
    pure (x, y, z)
  | _ => none

/-- Lexicographic strict order on parsed three-component versions, as
StrictVersion compares its version tuples. -/
def verLt (x y : Nat × Nat × Nat) : Bool :=
  if x.1 < y.1 then true
  else if x.1 = y.1 then
    if x.2.1 < y.2.1 then true
    else if x.2.1 = y.2.1 then decide (x.2.2 < y.2.2)
    else false
  else false

/-- Parsed upstream manifest (stack.xml): the fields the tool reads. The
spec's data model UpstreamRelease names exactly a name and a version. -/
structure Stack where
  name : String
  version : String
deriving DecidableEq

/-- Python attribute access on a parsed manifest object: only the declared
fields resolve; any other attribute name raises AttributeError, modelled by
None. -/
def stackAttr (s : Stack) (attr : String) : Option String :=
  if attr = "name" then some s.name
  else if attr = "version" then some s.version
  else none

/-- Exceptions the reconciliation code can raise. -/
inductive PyError where
  | valueError (s : String)
  | attributeError (a : String)
deriving DecidableEq

/-- Join a version triple with dots, as the source builds last_tag_version
(line 230). -/
def joinDots (t : String × String × String) : String :=
  t.1 ++ "." ++ t.2.1 ++ "." ++ t.2.2

/-- Warning text emitted when the upstream version has regressed
(lines 233 to 239). -/
def regression_warning (upstream_version last_tag_version : String) : String :=
  "Version discrepancy:\nThe upstream version, " ++ upstream_version ++
    ", should be greater than the previous\nrelease version, " ++ last_tag_version ++
    ".\n\nUpstream should rerelease or you should fix the release repo.\n"

/-- Warning text emitted when the upstream version is unchanged
(lines 241 to 244); its format argument is the manifest attribute verison,
exactly as the source spells it. -/
def staleness_warning (v : String) : String :=
  "Version discrepancy:\nThe upstream version, " ++ v ++
    ", is equal to a previous version.\n"

/-- Reconciliation step of import_upstream (lines 219 to 244), parameterized
over the two tag-parsing helpers that live in bloom.util (segmentVersion and
getVersionsFromUpstreamTag). With no prior tag the gbp triple comes from
segmenting the manifest version and the comparison block is skipped entirely;
with a prior tag the manifest version and the dotted tag triple are parsed as
strict versions and the two independent comparisons run. The result carries
the gbp triple and the warnings emitted, or the exception raised; the
staleness branch looks up the manifest attribute verison, as written at
line 244. Informational prints are not tracked. -/
def reconcile_version (segmentVersion getVersionsFromUpstreamTag : String → String × String × String)
    (last_tag : String) (stack : Stack) :
    Except PyError ((String × String × String) × List String) :=
  if last_tag = "" then
    Except.ok (segmentVersion stack.version, [])
  else
    let t := getVersionsFromUpstreamTag last_tag
    match parseStrictVersion stack.version with
    | none => Except.error (PyError.valueError stack.version)
    | some full_version_strict =>
      let last_tag_version := joinDots t
      match parseStrictVersion last_tag_version with
      | none => Except.error (PyError.valueError last_tag_version)
      | some last_tag_version_strict =>
        let w1 : List String :=
          if verLt full_version_strict last_tag_version_strict then
            [regression_warning stack.version last_tag_version]
          else []
        if full_version_strict = last_tag_version_strict then
          match stackAttr stack "verison" with
          | none => Except.error (PyError.attributeError "verison")
          | some v => Except.ok (t, w1 ++ [staleness_warning v])
        else Except.ok (t, w1)

/-- Modelled from the spec: segment_version lives in bloom.util, which is
not part of this tree. The spec describes tag segmentation as deriving a
major/minor/patch triple from a version-like string; we model it as
splitting on dots into exactly three components (and empty components for
any other shape). -/
def segment_version (s : String) : String × String × String :=
  match splitOnChar '.' s.data with
  | [a, b, c] => (String.mk a, String.mk b, String.mk c)
  | _ => ("", "", "")

/-- Modelled from the spec: get_versions_from_upstream_tag lives in
bloom.util, which is not part of this tree. The spec says a release tag
encodes major/minor/patch parsed by a dedicated segmentation routine; we
model it as segmenting the text after the last slash of the tag. -/
def get_versions_from_upstream_tag (tag : String) : String × String × String :=
  segment_version (String.mk ((splitOnChar '/' tag.data).getLastD []))

/-- Commits of the shallow git model: a message and the set of files
recorded in the commit tree. -/
structure Commit where
  message : String
  files : List String
deriving DecidableEq

/-- Shallow git repository state: local branches with their commit lists,
the branch HEAD points at, the index, and the working-tree files. -/
structure RepoState where
  branches : List (String × List Commit)
  head : String
  index : List String
  workdir : List String
deriving DecidableEq

/-- Semantics of git commit: record the index as a commit on the HEAD
branch, creating the branch if HEAD points at an unborn one. -/
def gitCommit (msg : String) (r : RepoState) : RepoState :=
  if r.head ∈ r.branches.map Prod.fst then
    { r with branches :=
        r.branches.map (fun p => if p.1 = r.head then (p.1, p.2 ++ [⟨msg, r.index⟩]) else p) }
  else
    { r with branches := r.branches ++ [(r.head, [⟨msg, r.index⟩])] }

/-- create_initial_upstream_branch (lines 133 to 141): point HEAD at the
unborn upstream ref, clear the index, clean the working tree (every file is
untracked once the index is gone), and commit, allowing the empty tree. -/
def create_initial_upstream_branch (r : RepoState) : RepoState :=
  let r1 : RepoState := { r with head := "upstream" }
  let r2 : RepoState := { r1 with index := [] }
  let r3 : RepoState := { r2 with workdir := [] }
  gitCommit "Initial upstream branch" r3

/-- Upstream-branch step of import_upstream (lines 246 to 251): if the
output of the git branch command contains no occurrence of upstream, create
the initial upstream branch; otherwise do nothing. -/
def ensure_upstream_branch (r : RepoState) : RepoState :=
  if countOccs "upstream".data (gitBranchOutput r.head (r.branches.map Prod.fst)) = 0 then
    create_initial_upstream_branch r
  else r

/-- Cleanup block of main (lines 286 to 290): re-read the local branch
listing and check out the remembered branch if it is nonempty (Python
truthiness) and occurs in the listing (Python substring membership).
Returns the branch checked out by the cleanup, if any. -/
def main_cleanup (current_branch : String) (headAtExit : String)
    (namesAtExit : List String) : Option String :=
  let local_branches := gitBranchOutput headAtExit namesAtExit
  if current_branch ≠ "" ∧ isSubListOf current_branch.data local_branches = true then
    some current_branch
  else none

/-- main (lines 270 to 290): remember the current branch, run
import_upstream (whose outcome — normal return or a fatal bail-out — is a
parameter here), and run the cleanup block on both exit paths, as the
try/finally of the source guarantees. The result pairs the outcome with the
branch the cleanup checked out. Named main_run because Lean reserves the
name main for entry points. -/
def main_run (current_branch : String) (importOutcome : Except String Unit)
    (headAtExit : String) (namesAtExit : List String) :
    Except String Unit × Option String :=
  match importOutcome with
  | Except.ok _ => (Except.ok (), main_cleanup current_branch headAtExit namesAtExit)
  | Except.error e => (Except.error e, main_cleanup current_branch headAtExit namesAtExit)

/-- Concrete repository whose only branch name contains upstream as a
proper substring, used to exhibit the substring behavior of the
upstream-branch check. -/
def repoFeatureUpstream : RepoState :=
  { branches := [("feature-upstream", [{ message := "c1", files := ["f"] }])],
    head := "feature-upstream", index := [], workdir := ["f"] }

/-- Concrete repository with a single master branch and no branch name
containing upstream. -/
def repoMasterOnly : RepoState :=
  { branches := [("master", [{ message := "c0", files := ["pkg.xml"] }])],
    head := "master", index := ["pkg.xml"], workdir := ["pkg.xml"] }

/-- Concrete repository whose only branch name contains upstream as a
proper substring, distinct from repoFeatureUpstream. -/
def repoUpstreamV2 : RepoState :=
  { branches := [("upstream-v2", [{ message := "c1", files := [] }])],
    head := "upstream-v2", index := [], workdir := [] }

-- Helper lemmas about the substring machinery and the branch listing.

theorem data_ne_nil_of_ne_empty {s : String} (h : s ≠ "") : s.data ≠ [] := by
  intro hd
  apply h
  cases s with
  | mk l => cases hd; rfl

theorem isPrefixOf_self_append (a b : List Char) : a.isPrefixOf (a ++ b) = true := by
  induction a with
  | nil => simp [List.isPrefixOf]
  | cons c rest ih => simp [List.isPrefixOf, ih]

theorem countOccsFuel_succ_pos (needle : List Char) (fuel : Nat) (c : Char)
    (rest : List Char) (hp : needle.isPrefixOf (c :: rest) = true) :
    countOccsFuel needle (fuel + 1) (c :: rest) ≠ 0 := by
  rw [countOccsFuel, if_pos hp]
  omega

theorem countOccsFuel_succ_neg (needle : List Char) (fuel : Nat) (c : Char)
    (rest : List Char) (hp : needle.isPrefixOf (c :: rest) = false) :
    countOccsFuel needle (fuel + 1) (c :: rest) = countOccsFuel needle fuel rest := by
  rw [countOccsFuel, if_neg (by simp [hp])]

theorem countOccsFuel_ne_zero (needle : List Char) (hne : needle ≠ []) :
    ∀ (fuel : Nat) (l r hay : List Char), hay = l ++ needle ++ r →
      hay.length ≤ fuel → countOccsFuel needle fuel hay ≠ 0 := by
  intro fuel
  induction fuel with
  | zero =>
    intro l r hay hdec hlen
    have hnil : hay = [] := List.eq_nil_of_length_eq_zero (Nat.le_zero.mp hlen)
    subst hdec
    rcases List.append_eq_nil.mp (List.append_eq_nil.mp hnil).1 with ⟨-, h2⟩
    exact absurd h2 hne
  | succ fuel ih =>
    intro l r hay hdec hlen
    subst hdec
    cases l with
    | nil =>
      rcases List.exists_cons_of_ne_nil hne with ⟨n0, ntl, hn⟩
      subst hn
      have hshape : ([] : List Char) ++ (n0 :: ntl) ++ r = n0 :: (ntl ++ r) := by simp
      rw [hshape]
      exact countOccsFuel_succ_pos _ fuel n0 (ntl ++ r)
        (isPrefixOf_self_append (n0 :: ntl) r)
    | cons c l' =>
      have hshape : (c :: l') ++ needle ++ r = c :: (l' ++ needle ++ r) := by simp
      rw [hshape]
      rw [hshape] at hlen
      cases hpb : needle.isPrefixOf (c :: (l' ++ needle ++ r)) with
      | true => exact countOccsFuel_succ_pos _ fuel c _ hpb
      | false =>
        rw [countOccsFuel_succ_neg _ fuel c _ hpb]
        apply ih l' r _ rfl
        simp only [List.length_cons] at hlen
        omega

theorem countOccs_ne_zero_of_split (needle : List Char) (hne : needle ≠ [])
    (hay l r : List Char) (hdec : hay = l ++ needle ++ r) : countOccs needle hay ≠ 0 :=
  countOccsFuel_ne_zero needle hne hay.length l r hay hdec (Nat.le_refl _)

theorem isSubListOf_cons (needle : List Char) (c : Char) (rest : List Char) :
    isSubListOf needle (c :: rest) =
      (needle.isPrefixOf (c :: rest) || isSubListOf needle rest) := rfl

theorem isSubListOf_of_split (needle : List Char) (hne : needle ≠ []) :
    ∀ (l r hay : List Char), hay = l ++ needle ++ r → isSubListOf needle hay = true := by
  intro l
  induction l with
  | nil =>
    intro r hay hdec
    subst hdec
    rcases List.exists_cons_of_ne_nil hne with ⟨n0, ntl, hn⟩
    subst hn
    have hshape : ([] : List Char) ++ (n0 :: ntl) ++ r = n0 :: (ntl ++ r) := by simp
    have hpre : (n0 :: ntl).isPrefixOf (n0 :: (ntl ++ r)) = true :=
      isPrefixOf_self_append (n0 :: ntl) r
    rw [hshape, isSubListOf_cons, hpre]
    rfl
  | cons c l' ih =>
    intro r hay hdec
    subst hdec
    have hshape : (c :: l') ++ needle ++ r = c :: (l' ++ needle ++ r) := by simp
    rw [hshape, isSubListOf_cons, ih r (l' ++ needle ++ r) rfl]
    simp

theorem gitBranchOutput_cons (cur x : String) (xs : List String) :
    gitBranchOutput cur (x :: xs) = gitBranchLine cur x ++ gitBranchOutput cur xs := by
  simp [gitBranchOutput]

theorem mem_gitBranchOutput_split (cur : String) :
    ∀ (names : List String) (b : String), b ∈ names →
      ∃ l r, gitBranchOutput cur names = l ++ b.data ++ r := by
  intro names
  induction names with
  | nil => intro b hb; simp at hb
  | cons x xs ih =>
    intro b hb
    rcases List.mem_cons.mp hb with h | h
    · subst h
      refine ⟨(if b = cur then "* " else "  ").data, '\n' :: gitBranchOutput cur xs, ?_⟩
      rw [gitBranchOutput_cons]
      simp [gitBranchLine, List.append_assoc]
    · rcases ih b h with ⟨l, r, hlr⟩
      refine ⟨gitBranchLine cur x ++ l, r, ?_⟩
      rw [gitBranchOutput_cons, hlr]
      simp [List.append_assoc]

theorem not_mem_of_countOccs_eq_zero (cur b : String) (names : List String)
    (hb : b ≠ "")
    (h : countOccs b.data (gitBranchOutput cur names) = 0) : b ∉ names := by
  intro hmem
  rcases mem_gitBranchOutput_split cur names b hmem with ⟨l, r, hlr⟩
  exact countOccs_ne_zero_of_split b.data (data_ne_nil_of_ne_empty hb) _ l r hlr h

theorem verLt_irrefl (v : Nat × Nat × Nat) : verLt v v = false := by
  simp [verLt]

theorem ne_of_verLt {x y : Nat × Nat × Nat} (h : verLt x y = true) : x ≠ y := by
  intro he
  subst he
  rw [verLt_irrefl] at h
  exact Bool.noConfusion h

theorem pyReplaceFuel_underscore :
    ∀ (fuel : Nat) (l : List Char), l.length ≤ fuel →
      pyReplaceFuel ['_'] ['-'] fuel l = l.map (fun c => if c = '_' then '-' else c) := by
  intro fuel
  induction fuel with
  | zero =>
    intro l hl
    have hnil : l = [] := List.eq_nil_of_length_eq_zero (Nat.le_zero.mp hl)
    subst hnil
    simp [pyReplaceFuel]
  | succ fuel ih =>
    intro l hl
    cases l with
    | nil => simp [pyReplaceFuel]
    | cons c rest =>
      have hrest : rest.length ≤ fuel := by
        simp only [List.length_cons] at hl
        omega
      by_cases hc : c = '_'
      · subst hc
        have hpre : (['_'] : List Char).isPrefixOf ('_' :: rest) = true := by
          simp [List.isPrefixOf]
        have hcond : (['_'] : List Char).isPrefixOf ('_' :: rest) = true ∧
            (['_'] : List Char) ≠ [] := ⟨hpre, by simp⟩
        rw [pyReplaceFuel, if_pos hcond]
        simp [ih rest hrest]
      · have hc' : ¬('_' = c) := fun h => hc h.symm
        have hpre : (['_'] : List Char).isPrefixOf (c :: rest) = false := by
          simp [List.isPrefixOf, hc']
        rw [pyReplaceFuel, if_neg (by simp [hpre])]
        simp [hc, ih rest hrest]

theorem tarball_matches_spec_name (pkg_name full_version : String) :
    tarball_file_name pkg_name full_version = spec_archive_name pkg_name full_version := by
  unfold tarball_file_name get_tarball_name spec_archive_name pyReplace
  rw [show ("_" : String).data = ['_'] from rfl, show ("-" : String).data = ['-'] from rfl,
    pyReplaceFuel_underscore _ _ (Nat.le_refl _)]

-- Claim theorems.

/-- C1: the claim says that when a prior release tag exists and the newly
fetched upstream version, parsed as a strict three-component version, equals
the baseline parsed from that tag, reconciliation emits exactly one
staleness warning and the run proceeds. The code instead aborts there: the
staleness branch formats its warning from the misspelled manifest attribute
verison (line 244), which raises AttributeError before any warning is
printed. This theorem evaluates the embedded reconciliation on every such
input and shows the run ends in the AttributeError. -/
theorem claim_C1_equal_version_raises
    (segv getv : String → String × String × String) (last_tag : String) (st : Stack)
    (v b : Nat × Nat × Nat)
    (h0 : last_tag ≠ "")
    (hv : parseStrictVersion st.version = some v)
    (hb : parseStrictVersion (joinDots (getv last_tag)) = some b)
    (heq : v = b) :
    reconcile_version segv getv last_tag st =
      Except.error (PyError.attributeError "verison") := by
  subst heq
  simp only [reconcile_version, if_neg h0, hv, hb]
  simp [verLt_irrefl, stackAttr]

theorem witness_C1 :
    reconcile_version segment_version get_versions_from_upstream_tag "upstream/1.2.3"
      { name := "foo", version := "1.2.3" } =
      Except.error (PyError.attributeError "verison") :=
  claim_C1_equal_version_raises segment_version get_versions_from_upstream_tag
    "upstream/1.2.3" { name := "foo", version := "1.2.3" } (1, 2, 3) (1, 2, 3)
    (by decide) (by decide) (by decide) rfl

/-- C2: when a prior release tag exists and the newly fetched upstream
version, parsed as a strict three-component version, is strictly less than
the baseline parsed from that tag, reconciliation emits exactly one
regression warning, emits no staleness warning, and does not abort. -/
theorem claim_C2_regression_single_warning
    (segv getv : String → String × String × String) (last_tag : String) (st : Stack)
    (v b : Nat × Nat × Nat)
    (h0 : last_tag ≠ "")
    (hv : parseStrictVersion st.version = some v)
    (hb : parseStrictVersion (joinDots (getv last_tag)) = some b)
    (hlt : verLt v b = true) :
    reconcile_version segv getv last_tag st =
      Except.ok (getv last_tag,
        [regression_warning st.version (joinDots (getv last_tag))]) := by
  simp only [reconcile_version, if_neg h0, hv, hb]
  rw [if_pos hlt, if_neg (ne_of_verLt hlt)]

theorem witness_C2 :
    reconcile_version segment_version get_versions_from_upstream_tag "upstream/1.2.3"
      { name := "foo", version := "1.2.2" } =
      Except.ok (("1", "2", "3"), [regression_warning "1.2.2" "1.2.3"]) :=
  claim_C2_regression_single_warning segment_version get_versions_from_upstream_tag
    "upstream/1.2.3" { name := "foo", version := "1.2.2" } (1, 2, 2) (1, 2, 3)
    (by decide) (by decide) (by decide) (by decide)

/-- C3 counterexample: in a bootstrap run (no prior release tag) with
manifest version 1.2.3, the baseline triple is indeed the segmentation of
that version, but the warning list is empty: the claimed staleness warning
is not emitted, because the whole comparison block lives in the branch that
only runs when a prior tag exists. -/
theorem cex_C3_bootstrap_no_warning :
    reconcile_version segment_version get_versions_from_upstream_tag ""
        { name := "foo_pkg", version := "1.2.3" } =
      Except.ok (("1", "2", "3"), []) ∧
    segment_version "1.2.3" = ("1", "2", "3") := by
  constructor <;> rfl

/-- C3 (amended): given no prior release tag, the baseline triple equals the
segmentation of the upstream manifest version, and no version comparison is
performed in this path: the reconciliation returns with no warning and no
error. -/
theorem claim_C3_bootstrap_baseline (segv getv : String → String × String × String)
    (st : Stack) :
    reconcile_version segv getv "" st = Except.ok (segv st.version, []) := by
  simp [reconcile_version]

/-- C4: the exported archive is named by replacing every underscore of the
package name with a hyphen, appending a hyphen and the version, and
suffixing .tar.gz; in particular foo_pkg at version 1.2.3 yields
foo-pkg-1.2.3.tar.gz. -/
theorem claim_C4_archive_naming :
    (∀ pkg_name full_version : String,
      tarball_file_name pkg_name full_version = spec_archive_name pkg_name full_version) ∧
    tarball_file_name "foo_pkg" "1.2.3" = "foo-pkg-1.2.3.tar.gz" :=
  ⟨tarball_matches_spec_name, by decide⟩

/-- C5: a missing bloom.upstreambranch key yields the empty string and is
not an error; a failing read of bloom.upstream or bloom.upstreamtype
propagates as a fatal error; on success the reader returns the triple of
the three configured values (stripped as the source strips them). -/
theorem claim_C5_parse_bloom_conf :
    (∀ (conf : String → Option String) (u t : String),
      conf "bloom.upstream" = some u → conf "bloom.upstreamtype" = some t →
      conf "bloom.upstreambranch" = none →
      parse_bloom_conf conf = some (pyStrip u, pyStrip t, "")) ∧
    (∀ conf : String → Option String, conf "bloom.upstream" = none →
      parse_bloom_conf conf = none) ∧
    (∀ (conf : String → Option String) (u : String),
      conf "bloom.upstream" = some u → conf "bloom.upstreamtype" = none →
      parse_bloom_conf conf = none) ∧
    (∀ (conf : String → Option String) (u t b : String),
      conf "bloom.upstream" = some u → conf "bloom.upstreamtype" = some t →
      conf "bloom.upstreambranch" = some b →
      parse_bloom_conf conf = some (pyStrip u, pyStrip t, pyStrip b)) := by
  refine ⟨?_, ?_, ?_, ?_⟩ <;> intros <;> simp_all [parse_bloom_conf]

theorem witness_C5 :
    parse_bloom_conf (fun k =>
        if k = "bloom.upstream" then some "https://example/repo"
        else if k = "bloom.upstreamtype" then some "git" else none) =
      some ("https://example/repo", "git", "") ∧
    parse_bloom_conf (fun _ => none) = none ∧
    parse_bloom_conf (fun k => if k = "bloom.upstream" then some "u" else none) = none ∧
    parse_bloom_conf (fun k =>
        if k = "bloom.upstream" then some "u"
        else if k = "bloom.upstreamtype" then some "git"
        else some " main ") =
      some ("u", "git", "main") :=
  ⟨claim_C5_parse_bloom_conf.1 _ "https://example/repo" "git"
      (by decide) (by decide) (by decide),
   claim_C5_parse_bloom_conf.2.1 _ rfl,
   claim_C5_parse_bloom_conf.2.2.1 _ "u" (by decide) (by decide),
   claim_C5_parse_bloom_conf.2.2.2 _ "u" "git" " main "
      (by decide) (by decide) (by decide)⟩

/-- C6 counterexample: the repository with local branches bloom-dev and
master has no branch named bloom and none named catkin, yet the validator
proceeds without bailing out and executes no command, because bloom occurs
as a substring of bloom-dev in the branch listing. -/
theorem cex_C6_substring_defeats_validator :
    ("bloom" ∉ ["bloom-dev", "master"]) ∧ ("catkin" ∉ ["bloom-dev", "master"]) ∧
    check_for_bloom (gitBranchOutput "master" ["bloom-dev", "master"]) false false =
      { commands := [], fatal := none } := by
  decide

/-- C6 (amended): for every repository state whose git branch listing
contains no occurrence of bloom and no occurrence of catkin as substrings,
the validator bails out fatally with the initialization-hint message and
executes no mutating command. -/
theorem claim_C6_validator_bails_out (cur : String) (names : List String)
    (catkin_conf_exists bloom_conf_exists : Bool)
    (h1 : countOccs "bloom".data (gitBranchOutput cur names) = 0)
    (h2 : countOccs "catkin".data (gitBranchOutput cur names) = 0) :
    check_for_bloom (gitBranchOutput cur names) catkin_conf_exists bloom_conf_exists =
      { commands := [], fatal := some not_a_bloom_release_repo_msg } := by
  simp [check_for_bloom, h1, h2]

theorem witness_C6 :
    check_for_bloom (gitBranchOutput "master" ["master"]) false false =
      { commands := [], fatal := some not_a_bloom_release_repo_msg } :=
  claim_C6_validator_bails_out "master" ["master"] false false (by decide) (by decide)

/-- C7 counterexample: the repository whose only branch is feature-upstream
has no branch named upstream, yet the initializer step does nothing — no
upstream branch is created — because upstream occurs as a substring of
feature-upstream in the branch listing. -/
theorem cex_C7_substring_skips_init :
    ("upstream" ∉ repoFeatureUpstream.branches.map Prod.fst) ∧
    ensure_upstream_branch repoFeatureUpstream = repoFeatureUpstream := by
  decide

/-- C7 (amended): if the git branch listing contains no occurrence of
upstream as a substring, the initializer creates exactly one new branch
named upstream holding a single empty commit with no files, leaving the
previously existing branches unchanged (purely additive); if the listing
does contain an occurrence of upstream, the initializer does not run and
the state is unchanged. -/
theorem claim_C7_upstream_branch_init (r : RepoState) :
    (countOccs "upstream".data (gitBranchOutput r.head (r.branches.map Prod.fst)) = 0 →
      ensure_upstream_branch r =
        { branches := r.branches ++
            [("upstream", [{ message := "Initial upstream branch", files := [] }])],
          head := "upstream", index := [], workdir := [] }) ∧
    (countOccs "upstream".data (gitBranchOutput r.head (r.branches.map Prod.fst)) ≠ 0 →
      ensure_upstream_branch r = r) := by
  constructor
  · intro h
    have hmem : "upstream" ∉ r.branches.map Prod.fst :=
      not_mem_of_countOccs_eq_zero r.head "upstream" (r.branches.map Prod.fst)
        (by decide) h
    rw [ensure_upstream_branch, if_pos h]
    simp [create_initial_upstream_branch, gitCommit, hmem]
  · intro h
    rw [ensure_upstream_branch, if_neg h]

theorem witness_C7 :
    ensure_upstream_branch repoMasterOnly =
      { branches := repoMasterOnly.branches ++
          [("upstream", [{ message := "Initial upstream branch", files := [] }])],
        head := "upstream", index := [], workdir := [] } ∧
    ensure_upstream_branch repoFeatureUpstream = repoFeatureUpstream :=
  ⟨(claim_C7_upstream_branch_init repoMasterOnly).1 (by decide),
   (claim_C7_upstream_branch_init repoFeatureUpstream).2 (by decide)⟩

/-- C8: on both exit paths of a run — normal completion as well as a fatal
error from the import — the cleanup block checks out the branch recorded
before the run began, provided that branch name is nonempty and the branch
still exists among the local branches at exit time. -/
theorem claim_C8_branch_restored (current_branch : String)
    (importOutcome : Except String Unit) (headAtExit : String)
    (namesAtExit : List String)
    (h1 : current_branch ≠ "") (h2 : current_branch ∈ namesAtExit) :
    (main_run current_branch importOutcome headAtExit namesAtExit).2 =
      some current_branch := by
  have hsub : isSubListOf current_branch.data (gitBranchOutput headAtExit namesAtExit) = true := by
    rcases mem_gitBranchOutput_split headAtExit namesAtExit current_branch h2 with ⟨l, r, hlr⟩
    exact isSubListOf_of_split current_branch.data (data_ne_nil_of_ne_empty h1) l r _ hlr
  cases importOutcome <;> simp [main_run, main_cleanup, h1, hsub]

theorem witness_C8 :
    (main_run "master" (Except.ok ()) "bloom" ["bloom", "master", "upstream"]).2 =
      some "master" ∧
    (main_run "master" (Except.error "git-import-orig failed") "bloom"
        ["bloom", "master", "upstream"]).2 = some "master" :=
  ⟨claim_C8_branch_restored "master" (Except.ok ()) "bloom"
      ["bloom", "master", "upstream"] (by decide) (by decide),
   claim_C8_branch_restored "master" (Except.error "git-import-orig failed") "bloom"
      ["bloom", "master", "upstream"] (by decide) (by decide)⟩

/-- C9: the branch-existence tests are substring checks on the git branch
output, not exact-name checks: a repository whose only branch is
my-bloom-dev passes the validator with no error and no migration although
no branch is literally named bloom or catkin, and a repository whose only
branch is upstream-v2 does not get the initial upstream branch although no
branch is literally named upstream. -/
theorem claim_C9_substring_checks :
    (("bloom" ∉ ["my-bloom-dev"]) ∧ ("catkin" ∉ ["my-bloom-dev"]) ∧
      check_for_bloom (gitBranchOutput "my-bloom-dev" ["my-bloom-dev"]) false false =
        { commands := [], fatal := none }) ∧
    (("upstream" ∉ repoUpstreamV2.branches.map Prod.fst) ∧
      ensure_upstream_branch repoUpstreamV2 = repoUpstreamV2) := by
  decide

/-- C10: the branch handed to the upstream checkout is the configured
bloom.upstreambranch value verbatim, except when it is exactly the literal
placeholder text, which is mapped to the empty string; an empty configured
branch is displayed with the placeholder, yet the checkout still receives
the empty string, so the display placeholder never feeds back into the
checkout. -/
theorem claim_C10_checkout_branch :
    (∀ b : String, b ≠ "(No branch set)" → checkout_branch_arg b = b) ∧
    checkout_branch_arg "(No branch set)" = "" ∧
    summarize_branch_display "" = "(No branch set)" ∧
    checkout_branch_arg "" = "" := by
  refine ⟨fun b h => if_pos h, by decide, by decide, by decide⟩

theorem witness_C10 : checkout_branch_arg "main" = "main" :=
  claim_C10_checkout_branch.1 "main" (by decide)
